import Mathlib

/-!
Shallow embedding of the toobusy event-loop-lag monitor.

The module keeps a single process-wide mutable record of variables
(lastCheckedTime, highWater, interval, smoothingFactor, currentLag,
checkInterval, lagEventThreshold, and the listener registry of the event
emitter).  We model that record as a `State` structure and every public
operation as an explicit state-passing function.  JavaScript numbers are
modelled as exact rationals; `process.hrtime.bigint()` instants are
rationals measured in milliseconds and supplied as explicit `now`
arguments.  An armed `setInterval` timer is modelled by the boolean
`running` (the JS code only ever tests `checkInterval` for truthiness).
A thrown `Error` is modelled by returning `Except.error` together with
the unchanged state.  A JavaScript argument that may or may not be a
number is modelled by `JSVal`; the event-listener callbacks are opaque,
so listeners are identified by natural numbers.
-/

namespace Toobusy

/-- The module-level mutable variables of toobusy.js. -/
structure State where
  lastCheckedTime : Option ℚ
  highWater : ℚ
  interval : ℚ
  smoothingFactor : ℚ
  currentLag : ℚ
  running : Bool
  lagEventThreshold : ℚ
  listeners : List ℕ
deriving Repr, DecidableEq

/-- A JavaScript argument: either a number or some non-numeric value. -/
inductive JSVal where
  | num (q : ℚ)
  | nonNum
deriving Repr, DecidableEq

/-- The single error kind raised by the setters, with its message. -/
inductive Err where
  | invalidArgument (msg : String)
deriving Repr, DecidableEq

/-- The variable initializers at the top of toobusy.js (before the
initial `start()` call at module load). -/
def initVars : State :=
  { lastCheckedTime := none
    highWater := 70
    interval := 500
    smoothingFactor := 1 / 3
    currentLag := 0
    running := false
    lagEventThreshold := -1
    listeners := [] }

/-- `function start()`: stamp `lastCheckedTime` with the current time,
cancel any armed timer and arm a fresh one (modelled by
`running := true`), and reset `currentLag` to 0.  The tick callback it
installs is modelled separately by `monitorLag`. -/
def start (now : ℚ) (s : State) : State :=
  { s with lastCheckedTime := some now, currentLag := 0, running := true }

/-- The state right after module load: `start()` is invoked once on the
initializers. -/
def initState (t0 : ℚ) : State := start t0 initVars

/-- The main export `toobusy()`.  `r` is the value drawn from
`Math.random()` on this call.  Returns the boolean decision and the
possibly-updated state. -/
def toobusy (r now : ℚ) (s : State) : Bool × State :=
  if !s.running then (false, start now s)
  else if s.currentLag ≤ 0 then (false, s)
  else if s.currentLag ≤ s.highWater then (false, s)
  else
    let highWaterLagRatio := (s.currentLag - s.highWater) / s.highWater
    (decide (r < min highWaterLagRatio 1), s)

/-- The tick callback `monitorLag` armed by `start`.  Returns the updated
state together with the payload `Math.round(currentLag)` of the lag event
scheduled on this tick, if any. -/
def monitorLag (now : ℚ) (s : State) : State × Option ℤ :=
  let responseDelayMs := max 0 ((now - s.lastCheckedTime.getD 0) - s.interval)
  let factor := if responseDelayMs < s.currentLag then 1 - s.smoothingFactor else s.smoothingFactor
  let newLag := factor * min responseDelayMs (s.highWater * 2) + (1 - factor) * s.currentLag
  let s1 : State := { s with currentLag := newLag, lastCheckedTime := some now }
  (s1,
    if s1.lagEventThreshold > 0 ∧ s1.currentLag > s1.lagEventThreshold then
      some (round s1.currentLag)
    else none)

/-- `toobusy.interval(newInterval)` called with one argument; the
zero-argument read is the field `State.interval` itself. -/
def interval (now : ℚ) (v : JSVal) (s : State) : Except Err ℚ × State :=
  match v with
  | .nonNum => (.error (.invalidArgument "Interval must be a number."), s)
  | .num q =>
    let newInterval : ℚ := (round q : ℤ)
    if newInterval < 16 then
      (.error (.invalidArgument "Interval should be greater than 16ms."), s)
    else if newInterval ≠ s.interval then
      let s1 : State := { s with interval := newInterval, currentLag := 0 }
      let s2 := if s1.running then start now s1 else s1
      (.ok s2.interval, s2)
    else (.ok s.interval, s)

/-- `toobusy.lag()`: the rounded current smoothed lag. -/
def lag (s : State) : ℤ := round s.currentLag

/-- `toobusy.maxLag(newLag)` called with one argument; the zero-argument
read is the field `State.highWater`. -/
def maxLag (v : JSVal) (s : State) : Except Err ℚ × State :=
  match v with
  | .nonNum => (.error (.invalidArgument "MaxLag must be a number."), s)
  | .num q =>
    let newLag : ℚ := (round q : ℤ)
    if newLag < 10 then
      (.error (.invalidArgument "Maximum lag should be greater than 10ms."), s)
    else (.ok newLag, { s with highWater := newLag })

/-- `toobusy.smoothingFactor(newFactor)` called with one argument; the
zero-argument read is the field `State.smoothingFactor`. -/
def smoothingFactorSet (v : JSVal) (s : State) : Except Err ℚ × State :=
  match v with
  | .nonNum => (.error (.invalidArgument "NewFactor must be a number."), s)
  | .num q =>
    if q ≤ 0 ∨ q > 1 then
      (.error (.invalidArgument "Smoothing factor should be in range ]0,1]."), s)
    else (.ok q, { s with smoothingFactor := q })

/-- `toobusy.shutdown()`. -/
def shutdown (s : State) : State :=
  { s with currentLag := 0
           lastCheckedTime := none
           running := false
           listeners := []
           lagEventThreshold := -1 }

/-- `toobusy.started()`. -/
def started (s : State) : Bool := s.running

/-- `toobusy.reset()`. -/
def reset (now : ℚ) (s : State) : State :=
  { s with currentLag := 0
           lastCheckedTime := if s.running then some now else s.lastCheckedTime }

/-- `toobusy.onLag(fn, threshold)`: `fn` is an opaque callback identifier,
`threshold` is `some t` when a number was passed and `none` otherwise. -/
def onLag (now : ℚ) (fn : ℕ) (threshold : Option ℚ) (s : State) : State :=
  let s1 : State :=
    { s with lagEventThreshold := match threshold with
               | some t => t
               | none => s.highWater
             listeners := s.listeners ++ [fn] }
  if !s1.running then start now s1 else s1

/-!  Helper lemmas shared by several theorems below.  -/

/-- Unfolding lemma: the smoothed lag written by one tick. -/
theorem monitorLag_currentLag_eq (now : ℚ) (s : State) :
    (monitorLag now s).1.currentLag =
      (if max 0 ((now - s.lastCheckedTime.getD 0) - s.interval) < s.currentLag
        then 1 - s.smoothingFactor else s.smoothingFactor) *
        min (max 0 ((now - s.lastCheckedTime.getD 0) - s.interval)) (s.highWater * 2) +
      (1 - (if max 0 ((now - s.lastCheckedTime.getD 0) - s.interval) < s.currentLag
        then 1 - s.smoothingFactor else s.smoothingFactor)) * s.currentLag := rfl

/-- C1: the admission decision function: if the sampler is not running it
starts the sampler and returns false; otherwise, if currentLag is at most 0
it returns false; if currentLag is at most the highWater threshold it
returns false; else, with the uniform draw r in [0,1) as input, it returns
true exactly when r < min((currentLag - highWater) / highWater, 1), so for
currentLag at least twice the threshold it returns true for every draw. -/
theorem C1_admission_decision (r now : ℚ) (s : State)
    (_hr0 : 0 ≤ r) (hr1 : r < 1) (hw : 0 < s.highWater) :
    (s.running = false → toobusy r now s = (false, start now s)) ∧
    (s.running = true → s.currentLag ≤ 0 → toobusy r now s = (false, s)) ∧
    (s.running = true → s.currentLag ≤ s.highWater → toobusy r now s = (false, s)) ∧
    (s.running = true → s.highWater < s.currentLag →
      ((toobusy r now s).1 = true ↔
        r < min ((s.currentLag - s.highWater) / s.highWater) 1)) ∧
    (s.running = true → 2 * s.highWater ≤ s.currentLag → toobusy r now s = (true, s)) := by
  refine ⟨?_, ?_, ?_, ?_, ?_⟩
  · intro hrun
    simp [toobusy, hrun]
  · intro hrun hlag
    simp [toobusy, hrun, hlag]
  · intro hrun hlag
    rcases le_or_lt s.currentLag 0 with h0 | h0
    · simp [toobusy, hrun, h0]
    · simp [toobusy, hrun, not_le.mpr h0, hlag]
  · intro hrun hlag
    have h0 : ¬ s.currentLag ≤ 0 := not_le.mpr (lt_trans hw hlag)
    have h1 : ¬ s.currentLag ≤ s.highWater := not_le.mpr hlag
    simp [toobusy, hrun, h0, h1]
  · intro hrun hlag
    have h0 : ¬ s.currentLag ≤ 0 := not_le.mpr (by linarith)
    have h1 : ¬ s.currentLag ≤ s.highWater := not_le.mpr (by linarith)
    have hge : (1 : ℚ) ≤ (s.currentLag - s.highWater) / s.highWater := by
      rw [le_div_iff₀ hw]
      linarith
    have hmin : min ((s.currentLag - s.highWater) / s.highWater) 1 = 1 :=
      min_eq_right hge
    simp [toobusy, hrun, h0, h1, hmin, hr1]

/-- C1 witness: in a running state with lag 150 and the default threshold
70 (so lag exceeds twice the threshold), the draw 1/2 yields true. -/
theorem C1_admission_decision_witness :
    ((0 : ℚ) ≤ 1 / 2 ∧ (1 / 2 : ℚ) < 1 ∧
      (0 : ℚ) < ({ initVars with running := true, currentLag := 150 } : State).highWater) ∧
    toobusy (1 / 2) 5 { initVars with running := true, currentLag := 150 } =
      (true, { initVars with running := true, currentLag := 150 }) :=
  ⟨⟨by norm_num, by norm_num, by norm_num [initVars]⟩,
    (C1_admission_decision (1 / 2) 5 _ (by norm_num) (by norm_num)
      (by norm_num [initVars])).2.2.2.2 rfl (by norm_num [initVars])⟩

/-- C2: on every tick, with elapsed = now - lastSampleInstant, rawDelay is
max(0, elapsed - intervalMs); the smoothing factor is 1 - smoothingAlpha
when rawDelay < currentLag and smoothingAlpha otherwise; the new currentLag
is factor * min(rawDelay, highWater * 2) + (1 - factor) * currentLag; and
lastCheckedTime is set to now. -/
theorem C2_tick_update (now : ℚ) (s : State) :
    (monitorLag now s).1.currentLag =
      (if max 0 ((now - s.lastCheckedTime.getD 0) - s.interval) < s.currentLag
        then 1 - s.smoothingFactor else s.smoothingFactor) *
        min (max 0 ((now - s.lastCheckedTime.getD 0) - s.interval)) (s.highWater * 2) +
      (1 - (if max 0 ((now - s.lastCheckedTime.getD 0) - s.interval) < s.currentLag
        then 1 - s.smoothingFactor else s.smoothingFactor)) * s.currentLag ∧
    (monitorLag now s).1.lastCheckedTime = some now :=
  ⟨rfl, rfl⟩

/-- C3: the interval setter: a non-numeric value fails with InvalidArgument
and a numeric value whose rounded integer is below 16 fails with
InvalidArgument, both leaving all state unchanged; when the rounded value
differs from the current interval it stores the rounded value, resets
currentLag to 0, and restarts the sampler if it is running (the timer is
re-armed and lastCheckedTime re-stamped); a subsequent zero-argument read
returns the stored value. -/
theorem C3_interval_setter (now : ℚ) (s : State) :
    (interval now .nonNum s = (.error (.invalidArgument "Interval must be a number."), s)) ∧
    (∀ q : ℚ, round q < 16 →
      interval now (.num q) s =
        (.error (.invalidArgument "Interval should be greater than 16ms."), s)) ∧
    (∀ q : ℚ, 16 ≤ round q → ((round q : ℤ) : ℚ) ≠ s.interval →
      (interval now (.num q) s).1 = .ok ((round q : ℤ) : ℚ) ∧
      (interval now (.num q) s).2.interval = ((round q : ℤ) : ℚ) ∧
      (interval now (.num q) s).2.currentLag = 0 ∧
      (interval now (.num q) s).2.running = s.running ∧
      (s.running = true → (interval now (.num q) s).2.lastCheckedTime = some now)) := by
  refine ⟨rfl, ?_, ?_⟩
  · intro q hq
    have hlt : ((round q : ℤ) : ℚ) < 16 := by exact_mod_cast hq
    simp [interval, hlt]
  · intro q hq hne
    have hlt : ¬ ((round q : ℤ) : ℚ) < 16 := not_lt.mpr (by exact_mod_cast hq)
    cases hrun : s.running with
    | true => simp [interval, hlt, hne, hrun, start]
    | false => simp [interval, hlt, hne, hrun, start]

/-- C3 witness: from the initial state (interval 500), setting the
interval to 250 succeeds, stores 250, resets the lag and re-stamps the
sample instant. -/
theorem C3_interval_setter_witness :
    (16 ≤ round (250 : ℚ) ∧ ((round (250 : ℚ) : ℤ) : ℚ) ≠ (initState 0).interval) ∧
    ((interval 3 (.num 250) (initState 0)).1 = .ok ((round (250 : ℚ) : ℤ) : ℚ) ∧
      (interval 3 (.num 250) (initState 0)).2.interval = ((round (250 : ℚ) : ℤ) : ℚ) ∧
      (interval 3 (.num 250) (initState 0)).2.currentLag = 0 ∧
      (interval 3 (.num 250) (initState 0)).2.running = (initState 0).running ∧
      ((initState 0).running = true →
        (interval 3 (.num 250) (initState 0)).2.lastCheckedTime = some 3)) :=
  ⟨⟨by norm_num [round_eq], by norm_num [round_eq, initState, initVars, start]⟩,
    (C3_interval_setter 3 (initState 0)).2.2 250 (by norm_num [round_eq])
      (by norm_num [round_eq, initState, initVars, start])⟩

/-- C4 counterexample: 19/2 = 9.5 is a numeric value below 10, yet the
threshold setter succeeds and stores 10, because the code rounds the
argument before the minimum check. -/
theorem C4_counterexample :
    ((19 : ℚ) / 2 < 10) ∧
    maxLag (.num (19 / 2)) (initState 0) =
      (.ok 10, { initState 0 with highWater := 10 }) := by
  constructor
  · norm_num
  · have h : round ((19 : ℚ) / 2) = 10 := by norm_num [round_eq]
    simp [maxLag, h, initState, initVars, start]

/-- C4 amended: the threshold setter: a non-numeric value fails with the
"must be a number" message; the numeric argument is rounded first, and a
value whose rounded integer is below 10 fails with the 10ms-minimum
message; otherwise the rounded value is stored (so a read after setting 50
returns 50, but a read after setting 10.4 returns 10); failures leave all
state unchanged and a successful set changes nothing but highWater. -/
theorem C4_maxLag_setter (s : State) :
    (maxLag .nonNum s = (.error (.invalidArgument "MaxLag must be a number."), s)) ∧
    (∀ q : ℚ, round q < 10 →
      maxLag (.num q) s =
        (.error (.invalidArgument "Maximum lag should be greater than 10ms."), s)) ∧
    (∀ q : ℚ, 10 ≤ round q →
      maxLag (.num q) s = (.ok ((round q : ℤ) : ℚ), { s with highWater := ((round q : ℤ) : ℚ) })) := by
  refine ⟨rfl, ?_, ?_⟩
  · intro q hq
    have hlt : ((round q : ℤ) : ℚ) < 10 := by exact_mod_cast hq
    simp [maxLag, hlt]
  · intro q hq
    have hlt : ¬ ((round q : ℤ) : ℚ) < 10 := not_lt.mpr (by exact_mod_cast hq)
    simp [maxLag, hlt]

/-- C4 witness: setting the threshold to 9 fails with the 10ms-minimum
message, and setting it to 50 stores 50. -/
theorem C4_maxLag_setter_witness :
    (round (9 : ℚ) < 10 ∧
      maxLag (.num 9) (initState 0) =
        (.error (.invalidArgument "Maximum lag should be greater than 10ms."), initState 0)) ∧
    (10 ≤ round (50 : ℚ) ∧
      maxLag (.num 50) (initState 0) =
        (.ok ((round (50 : ℚ) : ℤ) : ℚ),
          { initState 0 with highWater := ((round (50 : ℚ) : ℤ) : ℚ) })) :=
  ⟨⟨by norm_num [round_eq],
      (C4_maxLag_setter (initState 0)).2.1 9 (by norm_num [round_eq])⟩,
    ⟨by norm_num [round_eq],
      (C4_maxLag_setter (initState 0)).2.2 50 (by norm_num [round_eq])⟩⟩

/-- C5: registering a lag-event listener with a numeric threshold sets the
firing bound to that value; registering without one sets the bound to the
highWater (maxLag) value at registration time, and a later threshold
change does not move that bound; registration starts the sampler if it is
not running; a tick emits a notification carrying round(currentLag)
exactly when the firing bound is strictly positive and the updated
currentLag exceeds it. -/
theorem C5_onLag_registration (now tickNow : ℚ) (fn : ℕ) (t : ℚ)
    (th : Option ℚ) (s s2 : State) :
    ((onLag now fn (some t) s).lagEventThreshold = t) ∧
    ((onLag now fn none s).lagEventThreshold = s.highWater) ∧
    (∀ q : ℚ, 10 ≤ round q →
      (maxLag (.num q) (onLag now fn none s)).2.lagEventThreshold = s.highWater) ∧
    ((onLag now fn th s).running = true) ∧
    ((monitorLag tickNow s2).2 =
      if 0 < (monitorLag tickNow s2).1.lagEventThreshold ∧
          (monitorLag tickNow s2).1.lagEventThreshold < (monitorLag tickNow s2).1.currentLag
        then some (round (monitorLag tickNow s2).1.currentLag)
        else none) := by
  refine ⟨?_, ?_, ?_, ?_, rfl⟩
  · simp only [onLag]
    split <;> rfl
  · simp only [onLag]
    split <;> rfl
  · intro q hq
    have hlt : ¬ ((round q : ℤ) : ℚ) < 10 := not_lt.mpr (by exact_mod_cast hq)
    have h2 : (onLag now fn none s).lagEventThreshold = s.highWater := by
      simp only [onLag]
      split <;> rfl
    simp [maxLag, hlt, h2]
  · simp only [onLag]
    split
    · rfl
    · next h =>
      simp only [Bool.not_eq_true', Bool.not_eq_false] at h
      exact h

/-- C5 witness: the bound captured by a default registration at highWater
70 survives a later threshold change to 90. -/
theorem C5_onLag_registration_witness :
    (10 ≤ round (90 : ℚ)) ∧
    (maxLag (.num 90) (onLag 1 0 none (initState 0))).2.lagEventThreshold =
      (initState 0).highWater :=
  ⟨by norm_num [round_eq],
    (C5_onLag_registration 1 2 0 30 none (initState 0) (initState 0)).2.2.1 90
      (by norm_num [round_eq])⟩

/-- C6: after shutdown the timer is cancelled so started reports false,
lastCheckedTime is cleared, currentLag is 0, the listener registry is
emptied and lagEventThreshold is -1; and shutdown is idempotent. -/
theorem C6_shutdown_state (s : State) :
    started (shutdown s) = false ∧
    (shutdown s).lastCheckedTime = none ∧
    (shutdown s).currentLag = 0 ∧
    (shutdown s).listeners = [] ∧
    (shutdown s).lagEventThreshold = -1 ∧
    shutdown (shutdown s) = shutdown s :=
  ⟨rfl, rfl, rfl, rfl, rfl, rfl⟩

/-- C7 counterexample: in the reachable running state produced by one tick
at time 1000 from the initial state (currentLag = 140/3), calling start is
not a no-op: it resets currentLag to 0, changing the state. -/
theorem C7_counterexample :
    (monitorLag 1000 (initState 0)).1.running = true ∧
    start 1000 (monitorLag 1000 (initState 0)).1 ≠ (monitorLag 1000 (initState 0)).1 := by
  constructor
  · rfl
  · simp only [monitorLag, initState, initVars, start]
    norm_num [State.mk.injEq]

/-- C7 amended: start is idempotent — calling it twice at the same instant
leaves the state identical to calling it once — but when the sampler is
already running it is not a no-op: it re-arms the timer, re-stamps
lastCheckedTime to now and resets currentLag to 0. -/
theorem C7_start_idempotent (now : ℚ) (s : State) :
    start now (start now s) = start now s ∧
    (start now s).running = true ∧
    (start now s).currentLag = 0 ∧
    (start now s).lastCheckedTime = some now :=
  ⟨rfl, rfl, rfl, rfl⟩

/-- C8: currentLag is non-negative: it holds in the initial state and,
given a positive threshold and a smoothing factor in (0,1], it is
preserved by every operation — a tick writes a convex combination of the
non-negative clamped sample and the previous non-negative value, and every
other write is a reset to 0 or leaves the lag alone. -/
theorem C8_currentLag_nonneg (s : State) (now r : ℚ)
    (hw : 0 < s.highWater) (ha0 : 0 < s.smoothingFactor)
    (ha1 : s.smoothingFactor ≤ 1) (h : 0 ≤ s.currentLag) :
    0 ≤ (initState now).currentLag ∧
    0 ≤ (monitorLag now s).1.currentLag ∧
    0 ≤ (toobusy r now s).2.currentLag ∧
    (∀ v : JSVal, 0 ≤ (interval now v s).2.currentLag) ∧
    (∀ v : JSVal, 0 ≤ (maxLag v s).2.currentLag) ∧
    (∀ v : JSVal, 0 ≤ (smoothingFactorSet v s).2.currentLag) ∧
    0 ≤ (start now s).currentLag ∧
    0 ≤ (reset now s).currentLag ∧
    0 ≤ (shutdown s).currentLag := by
  refine ⟨le_refl 0, ?_, ?_, ?_, ?_, ?_, le_refl 0, le_refl 0, le_refl 0⟩
  · rw [monitorLag_currentLag_eq]
    have hraw : (0 : ℚ) ≤ max 0 ((now - s.lastCheckedTime.getD 0) - s.interval) :=
      le_max_left _ _
    have hcap : (0 : ℚ) ≤
        min (max 0 ((now - s.lastCheckedTime.getD 0) - s.interval)) (s.highWater * 2) :=
      le_min hraw (by linarith)
    split <;>
      exact add_nonneg (mul_nonneg (by linarith) hcap) (mul_nonneg (by linarith) h)
  · unfold toobusy
    split
    · exact le_refl 0
    · split
      · exact h
      · split
        · exact h
        · exact h
  · intro v
    cases v with
    | nonNum => exact h
    | num q =>
      simp only [interval]
      split
      · exact h
      · split
        · split
          · exact le_refl 0
          · exact le_refl 0
        · exact h
  · intro v
    cases v with
    | nonNum => exact h
    | num q =>
      simp only [maxLag]
      split
      · exact h
      · exact h
  · intro v
    cases v with
    | nonNum => exact h
    | num q =>
      simp only [smoothingFactorSet]
      split
      · exact h
      · exact h

/-- C8 witness: the invariant instantiated at the initial state (threshold
70, smoothing factor 1/3, lag 0), projected at the tick clause. -/
theorem C8_currentLag_nonneg_witness :
    ((0 : ℚ) < (initState 0).highWater ∧ (0 : ℚ) < (initState 0).smoothingFactor ∧
      (initState 0).smoothingFactor ≤ 1 ∧ (0 : ℚ) ≤ (initState 0).currentLag) ∧
    0 ≤ (monitorLag 600 (initState 0)).1.currentLag :=
  ⟨⟨by norm_num [initState, initVars, start], by norm_num [initState, initVars, start],
      by norm_num [initState, initVars, start], by norm_num [initState, initVars, start]⟩,
    (C8_currentLag_nonneg (initState 0) 600 0
      (by norm_num [initState, initVars, start])
      (by norm_num [initState, initVars, start])
      (by norm_num [initState, initVars, start])
      (by norm_num [initState, initVars, start])).2.1⟩

/-- C9 counterexample: a reachable refutation of "at smoothing factor 1
the estimate is non-decreasing across ticks and can only decrease via
reset, start, shutdown, or an interval change".  From the initial state,
set the smoothing factor to 1, tick at time 700 (currentLag becomes 140),
lower the threshold to 10, and tick again at time 1400: the tick itself
drops currentLag from 140 to 20 (the sample is clamped at the new
highWater * 2 = 20), with no reset, start, shutdown or interval change in
between. -/
theorem C9_counterexample :
    (maxLag (.num 10)
        (monitorLag 700 (smoothingFactorSet (.num 1) (initState 0)).2).1).2.smoothingFactor
      = 1 ∧
    (maxLag (.num 10)
        (monitorLag 700 (smoothingFactorSet (.num 1) (initState 0)).2).1).2.currentLag
      = 140 ∧
    (monitorLag 1400
        (maxLag (.num 10)
          (monitorLag 700 (smoothingFactorSet (.num 1) (initState 0)).2).1).2).1.currentLag
      = 20 := by
  have h : round ((10 : ℚ)) = 10 := by norm_num [round_eq]
  refine ⟨?_, ?_, ?_⟩ <;>
    norm_num [monitorLag, maxLag, smoothingFactorSet, initState, initVars, start, h]

/-- C9 amended: with smoothingAlpha = 1, a tick whose rawDelay is below
currentLag leaves currentLag exactly unchanged (the falling-branch factor
is 1 - 1 = 0); and as long as currentLag ≤ 2 * highWater — which holds
whenever the threshold has not been lowered below half of the current
estimate — a tick at factor 1 never decreases currentLag, so the estimate
can then only decrease via reset, start, shutdown, an interval change, or
a threshold decrease followed by a rising tick. -/
theorem C9_factor_one_monotone (now : ℚ) (s : State)
    (ha : s.smoothingFactor = 1) :
    (max 0 ((now - s.lastCheckedTime.getD 0) - s.interval) < s.currentLag →
      (monitorLag now s).1.currentLag = s.currentLag) ∧
    (s.currentLag ≤ s.highWater * 2 →
      s.currentLag ≤ (monitorLag now s).1.currentLag) := by
  constructor
  · intro hfall
    rw [monitorLag_currentLag_eq, if_pos hfall, ha]
    ring
  · intro hbound
    rw [monitorLag_currentLag_eq]
    split
    · next hc =>
      rw [ha]
      ring_nf
      exact le_rfl
    · next hc =>
      push_neg at hc
      rw [ha]
      have hmin : s.currentLag ≤
          min (max 0 ((now - s.lastCheckedTime.getD 0) - s.interval)) (s.highWater * 2) :=
        le_min hc hbound
      linarith

/-- C9 witness: at smoothing factor 1 with currentLag 140 and threshold
70 (so currentLag = highWater * 2), a tick at time 1200 (rawDelay 0, a
falling sample) leaves currentLag at exactly 140. -/
theorem C9_factor_one_monotone_witness :
    ((monitorLag 700 (smoothingFactorSet (.num 1) (initState 0)).2).1.smoothingFactor = 1 ∧
      max 0 ((1200 -
          (monitorLag 700 (smoothingFactorSet (.num 1) (initState 0)).2).1.lastCheckedTime.getD 0) -
          (monitorLag 700 (smoothingFactorSet (.num 1) (initState 0)).2).1.interval) <
        (monitorLag 700 (smoothingFactorSet (.num 1) (initState 0)).2).1.currentLag) ∧
    (monitorLag 1200 (monitorLag 700 (smoothingFactorSet (.num 1) (initState 0)).2).1).1.currentLag =
      (monitorLag 700 (smoothingFactorSet (.num 1) (initState 0)).2).1.currentLag :=
  ⟨⟨by norm_num [monitorLag, smoothingFactorSet, initState, initVars, start],
      by norm_num [monitorLag, smoothingFactorSet, initState, initVars, start]⟩,
    (C9_factor_one_monotone 1200 _
      (by norm_num [monitorLag, smoothingFactorSet, initState, initVars, start])).1
      (by norm_num [monitorLag, smoothingFactorSet, initState, initVars, start])⟩

/-- C10: registering a lag-event listener with an explicit threshold of 0
sets the shared firing bound to 0; since emission requires a strictly
positive bound, any state whose bound is at most 0 emits no lag event on a
tick, whatever currentLag is, and every operation other than a fresh
registration keeps the bound at most 0 (shutdown moves it to -1), so no
event fires until a later registration raises the bound. -/
theorem C10_zero_threshold_silences (now : ℚ) (fn : ℕ) (s : State) :
    ((onLag now fn (some 0) s).lagEventThreshold = 0) ∧
    (∀ s2 : State, s2.lagEventThreshold ≤ 0 →
      (monitorLag now s2).2 = none ∧
      (monitorLag now s2).1.lagEventThreshold = s2.lagEventThreshold) ∧
    (∀ s2 : State, s2.lagEventThreshold ≤ 0 → ∀ r : ℚ, ∀ v : JSVal,
      (toobusy r now s2).2.lagEventThreshold ≤ 0 ∧
      (interval now v s2).2.lagEventThreshold ≤ 0 ∧
      (maxLag v s2).2.lagEventThreshold ≤ 0 ∧
      (smoothingFactorSet v s2).2.lagEventThreshold ≤ 0 ∧
      (start now s2).lagEventThreshold ≤ 0 ∧
      (reset now s2).lagEventThreshold ≤ 0 ∧
      (shutdown s2).lagEventThreshold ≤ 0) := by
  refine ⟨?_, ?_, ?_⟩
  · simp only [onLag]
    split <;> rfl
  · intro s2 hle
    constructor
    · have hpos : ¬ (0 < s2.lagEventThreshold) := not_lt.mpr hle
      simp [monitorLag, hpos]
    · rfl
  · intro s2 hle r v
    refine ⟨?_, ?_, ?_, ?_, hle, hle, by norm_num [shutdown]⟩
    · unfold toobusy
      split
      · exact hle
      · split
        · exact hle
        · split
          · exact hle
          · exact hle
    · cases v with
      | nonNum => exact hle
      | num q =>
        simp only [interval]
        split
        · exact hle
        · split
          · split
            · exact hle
            · exact hle
          · exact hle
    · cases v with
      | nonNum => exact hle
      | num q =>
        simp only [maxLag]
        split
        · exact hle
        · exact hle
    · cases v with
      | nonNum => exact hle
      | num q =>
        simp only [smoothingFactorSet]
        split
        · exact hle
        · exact hle

/-- C10 witness: after registering a listener with explicit threshold 0 on
the initial state, a tick at time 1000 (which raises currentLag to 140/3)
emits no lag event. -/
theorem C10_zero_threshold_silences_witness :
    ((onLag 0 7 (some 0) (initState 0)).lagEventThreshold ≤ 0) ∧
    (monitorLag 1000 (onLag 0 7 (some 0) (initState 0))).2 = none :=
  ⟨by norm_num [onLag, initState, initVars, start],
    ((C10_zero_threshold_silences 1000 7 (initState 0)).2.1
      (onLag 0 7 (some 0) (initState 0))
      (by norm_num [onLag, initState, initVars, start])).1⟩

end Toobusy
